import Mathlib

/-!
Verification development for the Lightdash Python SDK query execution core:
the filter-expression and query-builder data model, the asynchronous query
execution state machine (submission, polling, timeout, cancellation), and
paginated result retrieval.

The Python implementation files of the core are not present in this
repository snapshot (only the documentation guide, notebook and build
configuration are), so the execution core is modelled from the
specification's words and the documented contracts.
-/

set_option autoImplicit false

namespace LightdashSpec

/-- Modelled from the spec: scalar values carried by rows and filter
literals (typed: number, string, bool, date, null). The implementation
module defining literal values is missing from the snapshot. -/
inductive Value where
  | num (n : Int)
  | str (s : String)
  | boolV (b : Bool)
  | date (d : String)
  | null
deriving Repr, DecidableEq

/-- Modelled from the spec: the declared data type of a field, which
determines the set of filter operators allowed on it. -/
inductive DataType where
  | numeric
  | str
  | boolean
  | date
deriving Repr, DecidableEq

/-- Modelled from the spec: the filter operator vocabulary. The extra
comparison operators `lessThanOrEqual` and `greaterThanOrEqual` appear in
the documented operator examples but not in the supported-operator table. -/
inductive Operator where
  | isNull
  | isNotNull
  | equals
  | notEquals
  | lessThan
  | greaterThan
  | lessThanOrEqual
  | greaterThanOrEqual
  | startsWith
  | endsWith
  | includes
  | inTheLast
  | inTheNext
  | inTheCurrent
  | isBefore
  | isAfter
  | isBetween
deriving Repr, DecidableEq

/-- Modelled from the spec: the allowed operator set for each declared data
type, following the supported-operators table (Numeric, String, Boolean,
Date). -/
def allowedOperators : DataType → List Operator
  | .numeric => [.isNull, .isNotNull, .equals, .notEquals, .lessThan, .greaterThan]
  | .str => [.isNull, .isNotNull, .equals, .notEquals, .startsWith, .endsWith, .includes]
  | .boolean => [.isNull, .isNotNull, .equals]
  | .date => [.isNull, .isNotNull, .equals, .notEquals, .inTheLast, .inTheNext,
              .inTheCurrent, .isBefore, .isAfter, .isBetween]

/-- Modelled from the spec: a field reference carrying only a stable
identity (name plus parent model) and the declared data type used for
filter validation. -/
structure FieldRef where
  name : String
  parentModel : String
  dataType : DataType
deriving Repr, DecidableEq

/-- Modelled from the spec: the error taxonomy surfaced to callers. -/
inductive SdkError where
  | unsupportedOperator (op : Operator) (dt : DataType)
  | querySubmission (message : String)
  | queryError (queryUuid : String) (message : String)
  | queryTimeout (queryUuid : String) (elapsed : Nat)
  | queryCancelled (queryUuid : String)
  | pageOutOfRange (n : Nat)
  | lightdash (statusCode : Nat) (message : String)
deriving Repr, DecidableEq

/-- Modelled from the spec: the immutable filter expression tree with
comparison, set-membership, string-predicate, null-check and date-relative
leaves, combinable via AND/OR nodes holding child lists. -/
inductive FilterNode where
  | comparison (field : FieldRef) (op : Operator) (value : Value)
  | setMembership (field : FieldRef) (values : List Value)
  | stringPredicate (field : FieldRef) (kind : Operator) (value : Value)
  | nullCheck (field : FieldRef) (isNull : Bool)
  | dateRelative (field : FieldRef) (kind : Operator) (params : List Value)
  | and (children : List FilterNode)
  | or (children : List FilterNode)
deriving Repr

/-- Modelled from the spec: build the leaf node kind that corresponds to an
already-validated operator. -/
def buildNode (f : FieldRef) (op : Operator) (vs : List Value) : FilterNode :=
  match op with
  | .isNull => .nullCheck f true
  | .isNotNull => .nullCheck f false
  | .startsWith | .endsWith | .includes => .stringPredicate f op (vs.headD .null)
  | .inTheLast | .inTheNext | .inTheCurrent | .isBefore | .isAfter | .isBetween =>
      .dateRelative f op vs
  | _ => .comparison f op (vs.headD .null)

/-- Modelled from the spec: filter construction validates the operator
against the allowed set for the field's declared data type and fails with
`UnsupportedOperatorError` carrying the offending operator and data type. -/
def mkFilter (f : FieldRef) (op : Operator) (vs : List Value) :
    Except SdkError FilterNode :=
  if op ∈ allowedOperators f.dataType then
    .ok (buildNode f op vs)
  else
    .error (.unsupportedOperator op f.dataType)

/-- Modelled from the spec: combining an `And` node with another condition
via AND appends to the existing child list rather than nesting; combining
any other node allocates a fresh two-child `And` node. -/
def combineAnd (a b : FilterNode) : FilterNode :=
  match a with
  | .and cs => .and (cs ++ [b])
  | _ => .and [a, b]

/-- Modelled from the spec: combining an `Or` node with another condition
via OR appends to the existing child list rather than nesting. -/
def combineOr (a b : FilterNode) : FilterNode :=
  match a with
  | .or cs => .or (cs ++ [b])
  | _ => .or [a, b]

/-- Modelled from the spec: the wire filter representation consumed by the
transport, a nested object with an operator name, an array of literal
values, and `and`/`or` keys holding arrays of child filter objects. -/
inductive Wire where
  | node (operatorName : String) (values : List Value) (fieldId : String)
  | andNode (children : List Wire)
  | orNode (children : List Wire)
deriving Repr

/-- Modelled from the spec: the fixed wire name of each operator. -/
def opWireName : Operator → String
  | .isNull => "isNull"
  | .isNotNull => "notNull"
  | .equals => "equals"
  | .notEquals => "notEquals"
  | .lessThan => "lessThan"
  | .greaterThan => "greaterThan"
  | .lessThanOrEqual => "lessThanOrEqual"
  | .greaterThanOrEqual => "greaterThanOrEqual"
  | .startsWith => "startsWith"
  | .endsWith => "endsWith"
  | .includes => "include"
  | .inTheLast => "isInTheLast"
  | .inTheNext => "isInTheNext"
  | .inTheCurrent => "isInTheCurrent"
  | .isBefore => "isBefore"
  | .isAfter => "isAfter"
  | .isBetween => "isBetween"

/-- Modelled from the spec: the stable wire identifier of a field is built
from its parent model and its name. -/
def fieldId (f : FieldRef) : String :=
  f.parentModel ++ "_" ++ f.name

mutual

/-- Modelled from the spec: serialize a filter tree into the wire filter
representation. -/
def serialize : FilterNode → Wire
  | .comparison f op v => .node (opWireName op) [v] (fieldId f)
  | .setMembership f vsl => .node (opWireName .equals) vsl (fieldId f)
  | .stringPredicate f k v => .node (opWireName k) [v] (fieldId f)
  | .nullCheck f true => .node (opWireName .isNull) [] (fieldId f)
  | .nullCheck f false => .node (opWireName .isNotNull) [] (fieldId f)
  | .dateRelative f k ps => .node (opWireName k) ps (fieldId f)
  | .and cs => .andNode (serializeList cs)
  | .or cs => .orNode (serializeList cs)

/-- Serialize a list of child filter trees in order. -/
def serializeList : List FilterNode → List Wire
  | [] => []
  | c :: cs => serialize c :: serializeList cs

end

mutual

/-- Boolean denotation of a wire filter object, parameterized by an
environment giving the truth value of each leaf (operator name, values,
field id). Two wire representations are equivalent when they evaluate
equally under every environment. -/
def evalWire (env : String → List Value → String → Bool) : Wire → Bool
  | .node opName vs fid => env opName vs fid
  | .andNode cs => evalWireAll env cs
  | .orNode cs => evalWireAny env cs

/-- Conjunction of the denotations of a list of wire objects. -/
def evalWireAll (env : String → List Value → String → Bool) : List Wire → Bool
  | [] => true
  | w :: ws => evalWire env w && evalWireAll env ws

/-- Disjunction of the denotations of a list of wire objects. -/
def evalWireAny (env : String → List Value → String → Bool) : List Wire → Bool
  | [] => false
  | w :: ws => evalWire env w || evalWireAny env ws

end

/-- Modelled from the spec: a sort specification with a target field, a
direction flag and optional null positioning. -/
structure SortSpec where
  target : String
  descending : Bool
  nullsFirst : Option Bool
deriving Repr, DecidableEq

/-- Modelled from the spec: the immutable query descriptor holding selected
metrics, dimensions, an optional filter tree, a sort list and an optional
row limit. -/
structure Query where
  metrics : List FieldRef
  dimensions : List FieldRef
  filter : Option FilterNode
  sorts : List SortSpec
  limit : Option Nat
deriving Repr

/-- Modelled from the spec: the fresh descriptor produced by `model.query()`
with no selections. -/
def Query.empty : Query :=
  { metrics := [], dimensions := [], filter := none, sorts := [], limit := none }

/-- Modelled from the spec: select metrics, returning a new descriptor. -/
def Query.withMetrics (q : Query) (ms : List FieldRef) : Query :=
  { q with metrics := ms }

/-- Modelled from the spec: select dimensions, returning a new descriptor. -/
def Query.withDimensions (q : Query) (ds : List FieldRef) : Query :=
  { q with dimensions := ds }

/-- Modelled from the spec: add a filter, returning a new descriptor; when a
filter is already present the new one is combined with it via AND rather
than replacing it. -/
def Query.withFilter (q : Query) (f : FilterNode) : Query :=
  match q.filter with
  | none => { q with filter := some f }
  | some g => { q with filter := some (combineAnd g f) }

/-- Modelled from the spec: set the sort list, returning a new descriptor. -/
def Query.withSort (q : Query) (ss : List SortSpec) : Query :=
  { q with sorts := ss }

/-- Modelled from the spec: set the row limit, returning a new descriptor. -/
def Query.withLimit (q : Query) (n : Nat) : Query :=
  { q with limit := some n }

/-- Modelled from the spec: the single-call construction pattern
`model.query(metrics=..., dimensions=..., filters=..., sort=..., limit=...)`,
written directly as a record build from its keyword arguments (the second
definition for the refinement comparison against the chainable builder). -/
def querySingleCall (ms ds : List FieldRef) (filters : Option FilterNode)
    (sort : List SortSpec) (limit : Option Nat) : Query :=
  { metrics := ms, dimensions := ds, filter := filters, sorts := sort, limit := limit }

/-- Modelled from the spec: a row maps field names to scalar values. -/
def Row : Type := List (String × Value)

instance : DecidableEq Row := by
  unfold Row
  infer_instance

/-- Modelled from the spec: one bounded slice of a completed query's rows. -/
structure ResultPage where
  pageNumber : Nat
  rows : List Row
  rowCount : Nat
deriving DecidableEq

/-- Modelled from the spec: one status-poll response from the transport,
reporting pending, ready (with the first page and result metadata), error
(with the server message) or cancelled. -/
inductive PollResponse where
  | pending
  | ready (page1 : ResultPage) (totalResults : Nat) (totalPages : Nat)
      (fields : List String)
  | errorResp (message : String)
  | cancelledResp
deriving DecidableEq

/-- Modelled from the spec: the transport collaborator contract needed by
the execution core. `poll n` is the response to the n-th status poll for
the job, `fetchPage` serves page fetches, and `cancelSucceeds` records
whether a best-effort cancellation request would succeed (the core never
depends on it). -/
structure Transport where
  poll : Nat → PollResponse
  fetchPage : String → Nat → ResultPage
  cancelSucceeds : Bool

/-- Modelled from the spec: the states of the query execution machine. -/
inductive QState where
  | Submitted
  | Polling
  | Ready
  | ErrorState
  | TimedOut
  | Cancelled
deriving Repr, DecidableEq

/-- Modelled from the spec: the mutable-by-design state container owned by
the execution state machine, extended with the poll and cancellation-request
counters that the mock-transport call-count assertions observe. -/
structure MachineState where
  queryUuid : String
  state : QState
  pollCount : Nat
  elapsed : Nat
  cancelRequests : Nat
  page1 : Option ResultPage
  totalResults : Option Nat
  totalPages : Option Nat
  fields : Option (List String)
  errorMessage : Option String
deriving DecidableEq

/-- Modelled from the spec: the machine state right after the transport
accepted the query and returned a `queryUuid`. -/
def initMachine (uuid : String) : MachineState :=
  { queryUuid := uuid, state := .Submitted, pollCount := 0, elapsed := 0,
    cancelRequests := 0, page1 := none, totalResults := none,
    totalPages := none, fields := none, errorMessage := none }

/-- Modelled from the spec: the polling loop. Each iteration polls the
transport; on `pending` it waits one poll interval (accounted into
`elapsed`) and, if the elapsed time now exceeds the wall-clock budget,
transitions to `TimedOut` and issues one best-effort cancellation request;
on `ready` it captures the first page and the result metadata and stops; on
`error` it captures the server message and stops; on `cancelled` it stops in
the `Cancelled` state. The fuel argument only bounds the recursion and is
chosen large enough in `execute` that it never runs out. -/
def runPoll (t : Transport) (budget interval : Nat) :
    Nat → MachineState → MachineState
  | 0, s => s
  | fuel + 1, s =>
    match t.poll s.pollCount with
    | .ready p tr tp fs =>
        { s with state := .Ready, pollCount := s.pollCount + 1,
                 page1 := some p, totalResults := some tr,
                 totalPages := some tp, fields := some fs }
    | .errorResp m =>
        { s with state := .ErrorState, pollCount := s.pollCount + 1,
                 errorMessage := some m }
    | .cancelledResp =>
        { s with state := .Cancelled, pollCount := s.pollCount + 1 }
    | .pending =>
        let s' : MachineState :=
          { s with state := .Polling, pollCount := s.pollCount + 1,
                   elapsed := s.elapsed + interval }
        if budget < s'.elapsed then
          { s' with state := .TimedOut, cancelRequests := s'.cancelRequests + 1 }
        else
          runPoll t budget interval fuel s'

/-- Modelled from the spec: drive a submitted query to a terminal state by
polling the transport under the caller-supplied wall-clock budget and poll
interval. The fuel `budget / interval + 2` exceeds the number of pending
polls possible before the budget is exhausted. -/
def execute (t : Transport) (budget interval : Nat) (uuid : String) :
    MachineState :=
  runPoll t budget interval (budget / interval + 2) (initMachine uuid)

/-- Modelled from the spec: an explicit caller-initiated cancel while in
`Submitted` or `Polling` issues one cancellation request to the transport
and then transitions locally to `Cancelled` regardless of the request's
success; in any other state it has no effect. -/
def cancelJob (_t : Transport) (s : MachineState) : MachineState :=
  match s.state with
  | .Submitted => { s with state := .Cancelled, cancelRequests := s.cancelRequests + 1 }
  | .Polling => { s with state := .Cancelled, cancelRequests := s.cancelRequests + 1 }
  | _ => s

/-- Modelled from the spec: a completed query's results, owning the result
metadata and a lazily populated page cache; `fetchCount` records how many
transport page fetches have been issued (the mock-transport call-count
assertion). -/
structure ResultSet where
  queryUuid : String
  totalResults : Nat
  totalPages : Nat
  fields : List String
  cache : List (Nat × ResultPage)
  fetchCount : Nat
deriving DecidableEq

/-- Modelled from the spec: the outcome mapping of a terminal machine state:
`Ready` yields a ResultSet seeded with the captured first page, `Error`
fails with QueryError, `TimedOut` with QueryTimeout, `Cancelled` with
QueryCancelled. -/
def outcomeOf (s : MachineState) : Except SdkError ResultSet :=
  match s.state with
  | .Ready =>
    match s.page1, s.totalResults, s.totalPages, s.fields with
    | some p, some tr, some tp, some fs =>
        .ok { queryUuid := s.queryUuid, totalResults := tr, totalPages := tp,
              fields := fs, cache := [(1, p)], fetchCount := 0 }
    | _, _, _, _ => .error (.lightdash 500 "ready state missing result metadata")
  | .ErrorState => .error (.queryError s.queryUuid (s.errorMessage.getD ""))
  | .TimedOut => .error (.queryTimeout s.queryUuid s.elapsed)
  | .Cancelled => .error (.queryCancelled s.queryUuid)
  | _ => .error (.lightdash 500 "query not finished")

/-- Modelled from the spec: `page(n)` is 1-indexed; an index outside
`[1, totalPages]` fails with `PageOutOfRangeError`, a cached page is
returned without touching the transport, and an uncached page is fetched
from the transport once and then cached. -/
def ResultSet.page (t : Transport) (rs : ResultSet) (n : Nat) :
    Except SdkError (ResultPage × ResultSet) :=
  if n < 1 ∨ rs.totalPages < n then
    .error (.pageOutOfRange n)
  else
    match rs.cache.lookup n with
    | some p => .ok (p, rs)
    | none =>
      let p := t.fetchPage rs.queryUuid n
      .ok (p, { rs with cache := (n, p) :: rs.cache,
                        fetchCount := rs.fetchCount + 1 })

/-- The result set produced by a cache-miss `page(n)` call: the fetched
page is cached and one transport fetch is recorded. -/
def cacheInsert (t : Transport) (rs : ResultSet) (n : Nat) : ResultSet :=
  { rs with cache := (n, t.fetchPage rs.queryUuid n) :: rs.cache,
            fetchCount := rs.fetchCount + 1 }

/-- Concrete String-typed field used by evaluation witnesses. -/
def statusField : FieldRef :=
  { name := "status", parentModel := "orders", dataType := .str }

/-- Concrete Numeric-typed field used by evaluation witnesses. -/
def amountField : FieldRef :=
  { name := "amount", parentModel := "orders", dataType := .numeric }

/-- Concrete one-row first page used by the pagination and state machine
witnesses. -/
def witnessPage : ResultPage :=
  { pageNumber := 1, rows := [[("revenue", Value.num 42)]], rowCount := 1 }

/-- Concrete transport whose pollStatus is pending three times and then
ready, whose page fetches all return `witnessPage`, and whose cancellation
requests succeed. -/
def witnessTransport : Transport :=
  { poll := fun n => if n < 3 then .pending else .ready witnessPage 5 2 ["revenue"],
    fetchPage := fun _ _ => witnessPage,
    cancelSucceeds := true }

/-- Concrete result set with two pages and an empty cache for the
pagination witness. -/
def witnessResultSet : ResultSet :=
  { queryUuid := "q-1", totalResults := 5, totalPages := 2, fields := ["revenue"],
    cache := [], fetchCount := 0 }

/-- Concrete transport that reports `pending` on every poll, used by the
timeout witness; its cancellation requests fail. -/
def pendingTransport : Transport :=
  { poll := fun _ => .pending,
    fetchPage := fun _ _ => witnessPage,
    cancelSucceeds := false }

/-- Concrete machine state in the `Polling` state, used by the explicit
cancellation witness. -/
def pollingState : MachineState :=
  { queryUuid := "q-1", state := .Polling, pollCount := 1, elapsed := 1,
    cancelRequests := 0, page1 := none, totalResults := none,
    totalPages := none, fields := none, errorMessage := none }

lemma page_cache_hit (t : Transport) (rs : ResultSet) (n : Nat) (p : ResultPage)
    (hcond : ¬(n < 1 ∨ rs.totalPages < n)) (hl : rs.cache.lookup n = some p) :
    rs.page t n = .ok (p, rs) := by
  unfold ResultSet.page
  rw [if_neg hcond, hl]

/-- C4: filter construction fails with `UnsupportedOperatorError` carrying
the offending operator and the field's data type exactly when the operator
is outside the allowed set for the field's declared data type; in
particular a `<` filter on a String field fails that way, while an
`equals` filter succeeds for every data type. -/
theorem filter_operator_validation (f : FieldRef) (op : Operator) (vs : List Value) :
    (mkFilter f op vs = .error (.unsupportedOperator op f.dataType) ↔
      op ∉ allowedOperators f.dataType) ∧
    (f.dataType = .str →
      mkFilter f .lessThan vs = .error (.unsupportedOperator .lessThan .str)) ∧
    (∃ node, mkFilter f .equals vs = .ok node) := by
  refine ⟨?_, ?_, ?_⟩
  · by_cases h : op ∈ allowedOperators f.dataType
    · simp [mkFilter, h]
    · simp [mkFilter, h]
  · intro h
    have hm : Operator.lessThan ∉ allowedOperators DataType.str := by decide
    simp [mkFilter, h, hm]
  · refine ⟨buildNode f .equals vs, ?_⟩
    have hm : Operator.equals ∈ allowedOperators f.dataType := by
      cases f.dataType <;> decide
    simp [mkFilter, hm]

/-- Witness for C4 at a concrete String field: `<` is rejected with the
operator and data type, `equals` is accepted. -/
theorem filter_operator_validation_witness :
    mkFilter statusField .lessThan [.str "x"] =
      .error (.unsupportedOperator .lessThan .str) ∧
    (∃ node, mkFilter statusField .equals [.str "x"] = .ok node) :=
  ⟨(filter_operator_validation statusField .lessThan [.str "x"]).2.1 rfl,
   (filter_operator_validation statusField .equals [.str "x"]).2.2⟩

/-- C5: every builder method returns a new descriptor in which only its own
field differs from the receiver: the four untouched fields of the result
always equal the receiver's (in a persistent-value embedding the receiver
itself is unchanged by construction). -/
theorem builder_methods_preserve_receiver (q : Query) (ms ds : List FieldRef)
    (f : FilterNode) (ss : List SortSpec) (n : Nat) :
    ((q.withLimit n).limit = some n ∧
     (q.withLimit n).metrics = q.metrics ∧
     (q.withLimit n).dimensions = q.dimensions ∧
     (q.withLimit n).filter = q.filter ∧
     (q.withLimit n).sorts = q.sorts) ∧
    ((q.withMetrics ms).metrics = ms ∧
     (q.withMetrics ms).dimensions = q.dimensions ∧
     (q.withMetrics ms).filter = q.filter ∧
     (q.withMetrics ms).sorts = q.sorts ∧
     (q.withMetrics ms).limit = q.limit) ∧
    ((q.withDimensions ds).dimensions = ds ∧
     (q.withDimensions ds).metrics = q.metrics ∧
     (q.withDimensions ds).filter = q.filter ∧
     (q.withDimensions ds).sorts = q.sorts ∧
     (q.withDimensions ds).limit = q.limit) ∧
    ((q.withSort ss).sorts = ss ∧
     (q.withSort ss).metrics = q.metrics ∧
     (q.withSort ss).dimensions = q.dimensions ∧
     (q.withSort ss).filter = q.filter ∧
     (q.withSort ss).limit = q.limit) ∧
    ((q.withFilter f).metrics = q.metrics ∧
     (q.withFilter f).dimensions = q.dimensions ∧
     (q.withFilter f).sorts = q.sorts ∧
     (q.withFilter f).limit = q.limit) := by
  refine ⟨⟨rfl, rfl, rfl, rfl, rfl⟩, ⟨rfl, rfl, rfl, rfl, rfl⟩,
          ⟨rfl, rfl, rfl, rfl, rfl⟩, ⟨rfl, rfl, rfl, rfl, rfl⟩, ?_⟩
  cases hq : q.filter <;> simp [Query.withFilter, hq]

/-- C6: adding a filter to a descriptor that already holds one combines the
two via AND rather than replacing, and adding one to a descriptor with no
filter installs it. -/
theorem withFilter_combines_via_and (q : Query) (f2 : FilterNode) :
    (q.filter = none → (q.withFilter f2).filter = some f2) ∧
    (∀ f1, q.filter = some f1 →
      (q.withFilter f2).filter = some (combineAnd f1 f2)) := by
  constructor
  · intro h
    simp [Query.withFilter, h]
  · intro f1 h
    simp [Query.withFilter, h]

/-- Witness for C6 at concrete descriptors: installing a first filter and
AND-combining a second. -/
theorem withFilter_combines_via_and_witness :
    (Query.empty.withFilter (.nullCheck statusField true)).filter =
      some (.nullCheck statusField true) ∧
    ((Query.empty.withFilter (.nullCheck statusField true)).withFilter
        (.nullCheck amountField false)).filter =
      some (combineAnd (.nullCheck statusField true) (.nullCheck amountField false)) := by
  constructor
  · exact (withFilter_combines_via_and Query.empty (.nullCheck statusField true)).1 rfl
  · exact (withFilter_combines_via_and
      (Query.empty.withFilter (.nullCheck statusField true))
      (.nullCheck amountField false)).2 (.nullCheck statusField true) rfl

/-- C9: the single-call construction pattern and the chainable builder
pattern produce structurally equal query descriptors for every choice of
metrics, dimensions, filter, sorts and limit. -/
theorem single_call_equals_chained (ms ds : List FieldRef) (f : FilterNode)
    (ss : List SortSpec) (n : Nat) :
    querySingleCall ms ds (some f) ss (some n) =
      ((((Query.empty.withMetrics ms).withDimensions ds).withFilter f).withSort ss).withLimit n := by
  simp [querySingleCall, Query.empty, Query.withMetrics, Query.withDimensions,
        Query.withFilter, Query.withSort, Query.withLimit]

/-- C10 counterexample: under the documented operator table, constructing a
`>=` comparison filter on a Numeric field does not succeed — it fails with
`UnsupportedOperatorError` carrying the operator and the Numeric type. -/
theorem numeric_ge_construction_rejected :
    mkFilter amountField .greaterThanOrEqual [.num 1000] =
      .error (.unsupportedOperator .greaterThanOrEqual .numeric) := by
  rfl

/-- C10 amended: for every Numeric field, constructing a `>=` or `<=`
comparison filter fails with `UnsupportedOperatorError`, because the
documented numeric operator set contains only `<` and `>` alongside
equality and null checks. -/
theorem numeric_ge_le_rejected (f : FieldRef) (vs : List Value)
    (h : f.dataType = .numeric) :
    mkFilter f .greaterThanOrEqual vs =
      .error (.unsupportedOperator .greaterThanOrEqual .numeric) ∧
    mkFilter f .lessThanOrEqual vs =
      .error (.unsupportedOperator .lessThanOrEqual .numeric) := by
  have h1 : Operator.greaterThanOrEqual ∉ allowedOperators DataType.numeric := by decide
  have h2 : Operator.lessThanOrEqual ∉ allowedOperators DataType.numeric := by decide
  constructor
  · simp [mkFilter, h, h1]
  · simp [mkFilter, h, h2]

/-- Witness for the amended C10 at a concrete Numeric field. -/
theorem numeric_ge_le_rejected_witness :
    mkFilter amountField .greaterThanOrEqual [.num 7] =
      .error (.unsupportedOperator .greaterThanOrEqual .numeric) ∧
    mkFilter amountField .lessThanOrEqual [.num 7] =
      .error (.unsupportedOperator .lessThanOrEqual .numeric) :=
  numeric_ge_le_rejected amountField [.num 7] rfl

lemma serializeList_append (xs ys : List FilterNode) :
    serializeList (xs ++ ys) = serializeList xs ++ serializeList ys := by
  induction xs with
  | nil => rfl
  | cons c cs ih => simp [serializeList, ih]

lemma evalWireAll_append (env : String → List Value → String → Bool)
    (xs ys : List Wire) :
    evalWireAll env (xs ++ ys) = (evalWireAll env xs && evalWireAll env ys) := by
  induction xs with
  | nil => simp [evalWireAll]
  | cons w ws ih => simp [evalWireAll, ih, Bool.and_assoc]

/-- C8: combining an `And` node with another condition via AND appends the
condition to the existing child list instead of nesting, and the flattened
combination serializes to a wire filter equivalent (equal denotation under
every leaf environment) to the nested two-child `And` form. -/
theorem combineAnd_flattens_and_serializes_equivalently (a b : FilterNode)
    (env : String → List Value → String → Bool) :
    (∀ cs, a = .and cs → combineAnd a b = .and (cs ++ [b])) ∧
    evalWire env (serialize (combineAnd a b)) =
      evalWire env (serialize (.and [a, b])) := by
  constructor
  · intro cs h
    subst h
    rfl
  · cases a with
    | and cs =>
      show evalWire env (serialize (.and (cs ++ [b]))) = _
      simp [serialize, serializeList, serializeList_append, evalWire,
            evalWireAll, evalWireAll_append, Bool.and_assoc]
    | comparison f op v => rfl
    | setMembership f vsl => rfl
    | stringPredicate f k v => rfl
    | nullCheck f isN => rfl
    | dateRelative f k ps => rfl
    | or cs => rfl

/-- Witness for C8 at a concrete `And` node, condition and environment. -/
theorem combineAnd_flattens_witness :
    combineAnd (.and [.nullCheck statusField true]) (.nullCheck amountField false) =
      .and [.nullCheck statusField true, .nullCheck amountField false] ∧
    evalWire (fun _ _ _ => true)
        (serialize (combineAnd (.and [.nullCheck statusField true])
          (.nullCheck amountField false))) =
      evalWire (fun _ _ _ => true)
        (serialize (.and [.and [.nullCheck statusField true],
          .nullCheck amountField false])) :=
  ⟨(combineAnd_flattens_and_serializes_equivalently
      (.and [.nullCheck statusField true]) (.nullCheck amountField false)
      (fun _ _ _ => true)).1 [.nullCheck statusField true] rfl,
   (combineAnd_flattens_and_serializes_equivalently
      (.and [.nullCheck statusField true]) (.nullCheck amountField false)
      (fun _ _ _ => true)).2⟩

/-- C7: `page(n)` fails with `PageOutOfRangeError` exactly when `n` is
outside `[1, totalPages]`; for a valid `n` the first call returns a page
and a result set from which every repeated call returns the identical
cached page with no further state change (in particular no second
transport fetch); a cache miss fetches from the transport and counts one
fetch, a cache hit changes nothing. -/
theorem page_range_check_and_cache (t : Transport) (rs : ResultSet) (n : Nat) :
    ((n < 1 ∨ rs.totalPages < n) →
      rs.page t n = .error (.pageOutOfRange n)) ∧
    (1 ≤ n → n ≤ rs.totalPages →
      ∃ p rs', rs.page t n = .ok (p, rs') ∧
        rs'.page t n = .ok (p, rs') ∧
        (rs.cache.lookup n = none →
          p = t.fetchPage rs.queryUuid n ∧
          rs'.fetchCount = rs.fetchCount + 1) ∧
        (∀ p0, rs.cache.lookup n = some p0 → p = p0 ∧ rs' = rs)) := by
  constructor
  · intro h
    unfold ResultSet.page
    rw [if_pos h]
  · intro h1 h2
    have hcond : ¬(n < 1 ∨ rs.totalPages < n) := by omega
    cases hl : rs.cache.lookup n with
    | some p0 =>
      refine ⟨p0, rs, ?_, ?_, ?_, ?_⟩
      · exact page_cache_hit t rs n p0 hcond hl
      · exact page_cache_hit t rs n p0 hcond hl
      · intro hnone
        exact Option.noConfusion hnone
      · intro p0' hsome
        cases hsome
        exact ⟨rfl, rfl⟩
    | none =>
      refine ⟨t.fetchPage rs.queryUuid n, cacheInsert t rs n, ?_, ?_, ?_, ?_⟩
      · unfold ResultSet.page
        rw [if_neg hcond, hl]
        rfl
      · have hcond2 : ¬(n < 1 ∨ (cacheInsert t rs n).totalPages < n) := hcond
        have hlook : (cacheInsert t rs n).cache.lookup n =
            some (t.fetchPage rs.queryUuid n) := by
          simp [cacheInsert, List.lookup]
        exact page_cache_hit t (cacheInsert t rs n) n
          (t.fetchPage rs.queryUuid n) hcond2 hlook
      · intro _
        exact ⟨rfl, rfl⟩
      · intro p0' hsome
        exact Option.noConfusion hsome

/-- Witness for C7 at a concrete result set: page 5 is out of range, page 1
is served and then repeatedly served from cache. -/
theorem page_range_check_and_cache_witness :
    witnessResultSet.page witnessTransport 5 = .error (.pageOutOfRange 5) ∧
    (∃ p rs', witnessResultSet.page witnessTransport 1 = .ok (p, rs') ∧
      rs'.page witnessTransport 1 = .ok (p, rs') ∧
      (witnessResultSet.cache.lookup 1 = none →
        p = witnessTransport.fetchPage witnessResultSet.queryUuid 1 ∧
        rs'.fetchCount = witnessResultSet.fetchCount + 1) ∧
      (∀ p0, witnessResultSet.cache.lookup 1 = some p0 →
        p = p0 ∧ rs' = witnessResultSet)) := by
  constructor
  · exact (page_range_check_and_cache witnessTransport witnessResultSet 5).1
      (by right; decide)
  · exact (page_range_check_and_cache witnessTransport witnessResultSet 1).2
      (by decide) (by decide)

lemma runPoll_pending_step (t : Transport) (b i fuel : Nat) (u : String)
    (st : QState) (pc el cr : Nat) (p1 : Option ResultPage) (trm tpm : Option Nat)
    (fsm : Option (List String)) (em : Option String)
    (h : t.poll pc = .pending) (hle : el + i ≤ b) :
    runPoll t b i (fuel + 1) ⟨u, st, pc, el, cr, p1, trm, tpm, fsm, em⟩ =
      runPoll t b i fuel ⟨u, .Polling, pc + 1, el + i, cr, p1, trm, tpm, fsm, em⟩ := by
  simp only [runPoll, h]
  rw [if_neg (by omega)]

lemma runPoll_pending_timeout_step (t : Transport) (b i fuel : Nat) (u : String)
    (st : QState) (pc el cr : Nat) (p1 : Option ResultPage) (trm tpm : Option Nat)
    (fsm : Option (List String)) (em : Option String)
    (h : t.poll pc = .pending) (hgt : b < el + i) :
    runPoll t b i (fuel + 1) ⟨u, st, pc, el, cr, p1, trm, tpm, fsm, em⟩ =
      ⟨u, .TimedOut, pc + 1, el + i, cr + 1, p1, trm, tpm, fsm, em⟩ := by
  simp only [runPoll, h]
  rw [if_pos (by omega)]

lemma runPoll_ready_step (t : Transport) (b i fuel : Nat) (u : String)
    (st : QState) (pc el cr : Nat) (p1 : Option ResultPage) (trm tpm : Option Nat)
    (fsm : Option (List String)) (em : Option String) (p : ResultPage)
    (tr tp : Nat) (fs : List String)
    (h : t.poll pc = .ready p tr tp fs) :
    runPoll t b i (fuel + 1) ⟨u, st, pc, el, cr, p1, trm, tpm, fsm, em⟩ =
      ⟨u, .Ready, pc + 1, el, cr, some p, some tr, some tp, some fs, em⟩ := by
  simp only [runPoll, h]

lemma outcomeOf_timedOut (s : MachineState) (h : s.state = .TimedOut) :
    outcomeOf s = .error (.queryTimeout s.queryUuid s.elapsed) := by
  unfold outcomeOf
  rw [h]

lemma runPoll_ignores_cancel (t1 t2 : Transport) (hp : t1.poll = t2.poll)
    (b i : Nat) : ∀ fuel s, runPoll t1 b i fuel s = runPoll t2 b i fuel s := by
  intro fuel
  induction fuel with
  | zero =>
    intro s
    rfl
  | succ f ih =>
    intro s
    simp only [runPoll, hp]
    cases t2.poll s.pollCount with
    | pending =>
      simp only []
      split
      · rfl
      · exact ih _
    | ready p tr tp fs => rfl
    | errorResp m => rfl
    | cancelledResp => rfl

lemma runPoll_all_pending (t : Transport) (b i : Nat)
    (hall : ∀ n, t.poll n = .pending) :
    ∀ (fuel : Nat) (u : String) (st : QState) (pc el cr : Nat)
      (p1 : Option ResultPage) (trm tpm : Option Nat)
      (fsm : Option (List String)) (em : Option String),
    el ≤ b → b < el + fuel * i →
    (runPoll t b i fuel ⟨u, st, pc, el, cr, p1, trm, tpm, fsm, em⟩).state = .TimedOut ∧
    (runPoll t b i fuel ⟨u, st, pc, el, cr, p1, trm, tpm, fsm, em⟩).cancelRequests = cr + 1 ∧
    (runPoll t b i fuel ⟨u, st, pc, el, cr, p1, trm, tpm, fsm, em⟩).queryUuid = u := by
  intro fuel
  induction fuel with
  | zero =>
    intro u st pc el cr p1 trm tpm fsm em hle hgt
    omega
  | succ f ih =>
    intro u st pc el cr p1 trm tpm fsm em hle hgt
    by_cases hc : b < el + i
    · rw [runPoll_pending_timeout_step t b i f u st pc el cr p1 trm tpm fsm em
        (hall pc) hc]
      exact ⟨rfl, rfl, rfl⟩
    · rw [runPoll_pending_step t b i f u st pc el cr p1 trm tpm fsm em
        (hall pc) (by omega)]
      rw [Nat.succ_mul] at hgt
      exact ih u .Polling (pc + 1) (el + i) cr p1 trm tpm fsm em (by omega) (by omega)

/-- C1: against a transport whose pollStatus is `pending` on the first three
calls and `ready` on the fourth, `execute` reaches the `Ready` terminal
state after exactly four poll calls, captures the metadata of the `ready`
response, and returns a ResultSet carrying `totalResults`, `totalPages`,
`fields` and the first result page (the wall-clock budget covering at least
three poll intervals so that no timeout intervenes). -/
theorem execute_pending_three_then_ready (t : Transport) (budget interval : Nat)
    (uuid : String) (p : ResultPage) (tr tp : Nat) (fs : List String)
    (hi : 0 < interval) (hb : 3 * interval ≤ budget)
    (h0 : t.poll 0 = .pending) (h1 : t.poll 1 = .pending)
    (h2 : t.poll 2 = .pending) (h3 : t.poll 3 = .ready p tr tp fs) :
    (execute t budget interval uuid).state = .Ready ∧
    (execute t budget interval uuid).pollCount = 4 ∧
    (execute t budget interval uuid).page1 = some p ∧
    (execute t budget interval uuid).totalResults = some tr ∧
    (execute t budget interval uuid).totalPages = some tp ∧
    (execute t budget interval uuid).fields = some fs ∧
    outcomeOf (execute t budget interval uuid) =
      .ok { queryUuid := uuid, totalResults := tr, totalPages := tp,
            fields := fs, cache := [(1, p)], fetchCount := 0 } := by
  have hq3 : 3 ≤ budget / interval := (Nat.le_div_iff_mul_le hi).mpr (by omega)
  obtain ⟨c, hc⟩ := Nat.exists_eq_add_of_le hq3
  have hfuel : budget / interval + 2 = c + 5 := by omega
  have hex : execute t budget interval uuid =
      runPoll t budget interval (c + 5)
        ⟨uuid, .Submitted, 0, 0, 0, none, none, none, none, none⟩ := by
    unfold execute initMachine
    rw [hfuel]
  have hfinal : runPoll t budget interval (c + 5)
      ⟨uuid, .Submitted, 0, 0, 0, none, none, none, none, none⟩ =
      ⟨uuid, .Ready, 0 + 1 + 1 + 1 + 1, 0 + interval + interval + interval, 0,
        some p, some tr, some tp, some fs, none⟩ := by
    calc runPoll t budget interval (c + 5)
          ⟨uuid, .Submitted, 0, 0, 0, none, none, none, none, none⟩
        = runPoll t budget interval (c + 4)
            ⟨uuid, .Polling, 0 + 1, 0 + interval, 0, none, none, none, none, none⟩ :=
          runPoll_pending_step t budget interval (c + 4) uuid .Submitted 0 0 0
            none none none none none h0 (by omega)
      _ = runPoll t budget interval (c + 3)
            ⟨uuid, .Polling, 0 + 1 + 1, 0 + interval + interval, 0,
              none, none, none, none, none⟩ :=
          runPoll_pending_step t budget interval (c + 3) uuid .Polling (0 + 1)
            (0 + interval) 0 none none none none none h1 (by omega)
      _ = runPoll t budget interval (c + 2)
            ⟨uuid, .Polling, 0 + 1 + 1 + 1, 0 + interval + interval + interval, 0,
              none, none, none, none, none⟩ :=
          runPoll_pending_step t budget interval (c + 2) uuid .Polling (0 + 1 + 1)
            (0 + interval + interval) 0 none none none none none h2 (by omega)
      _ = ⟨uuid, .Ready, 0 + 1 + 1 + 1 + 1, 0 + interval + interval + interval, 0,
            some p, some tr, some tp, some fs, none⟩ :=
          runPoll_ready_step t budget interval (c + 1) uuid .Polling (0 + 1 + 1 + 1)
            (0 + interval + interval + interval) 0 none none none none none p tr tp fs h3
  rw [hex, hfinal]
  exact ⟨rfl, rfl, rfl, rfl, rfl, rfl, rfl⟩

/-- Witness for C1 at the concrete transport that is pending three times and
then ready. -/
theorem execute_pending_three_then_ready_witness :
    (execute witnessTransport 100 1 "q-1").state = .Ready ∧
    (execute witnessTransport 100 1 "q-1").pollCount = 4 ∧
    (execute witnessTransport 100 1 "q-1").page1 = some witnessPage ∧
    (execute witnessTransport 100 1 "q-1").totalResults = some 5 ∧
    (execute witnessTransport 100 1 "q-1").totalPages = some 2 ∧
    (execute witnessTransport 100 1 "q-1").fields = some ["revenue"] ∧
    outcomeOf (execute witnessTransport 100 1 "q-1") =
      .ok { queryUuid := "q-1", totalResults := 5, totalPages := 2,
            fields := ["revenue"], cache := [(1, witnessPage)], fetchCount := 0 } :=
  execute_pending_three_then_ready witnessTransport 100 1 "q-1" witnessPage 5 2
    ["revenue"] (by decide) (by decide) rfl rfl rfl rfl

/-- C2: against a transport that reports `pending` on every poll, `execute`
transitions to `TimedOut` once the elapsed polling time exceeds the
wall-clock budget, issues exactly one cancellation request, fails with
`QueryTimeout` for the queryUuid, and its outcome is unchanged whether the
cancellation request would succeed or fail. -/
theorem execute_pending_forever_times_out (t : Transport) (budget interval : Nat)
    (uuid : String) (hi : 0 < interval) (hall : ∀ n, t.poll n = .pending) :
    (execute t budget interval uuid).state = .TimedOut ∧
    (execute t budget interval uuid).cancelRequests = 1 ∧
    outcomeOf (execute t budget interval uuid) =
      .error (.queryTimeout uuid (execute t budget interval uuid).elapsed) ∧
    (∀ c : Bool, execute { t with cancelSucceeds := c } budget interval uuid =
      execute t budget interval uuid) := by
  have hdm : budget / interval * interval + budget % interval = budget :=
    Nat.div_add_mod' budget interval
  have hmod : budget % interval < interval := Nat.mod_lt _ hi
  have hexp : (budget / interval + 2) * interval =
      budget / interval * interval + 2 * interval := by ring
  have hmain := runPoll_all_pending t budget interval hall
    (budget / interval + 2) uuid .Submitted 0 0 0 none none none none none
    (by omega) (by rw [hexp]; omega)
  have hstate : (execute t budget interval uuid).state = .TimedOut := hmain.1
  have hcr : (execute t budget interval uuid).cancelRequests = 1 := hmain.2.1
  have huuid : (execute t budget interval uuid).queryUuid = uuid := hmain.2.2
  refine ⟨hstate, hcr, ?_, ?_⟩
  · rw [outcomeOf_timedOut _ hstate, huuid]
  · intro c
    unfold execute
    exact runPoll_ignores_cancel { t with cancelSucceeds := c } t rfl
      budget interval (budget / interval + 2) (initMachine uuid)

/-- Witness for C2 at the concrete always-pending transport with a budget of
two poll intervals. -/
theorem execute_pending_forever_times_out_witness :
    (execute pendingTransport 4 2 "q-1").state = .TimedOut ∧
    (execute pendingTransport 4 2 "q-1").cancelRequests = 1 ∧
    outcomeOf (execute pendingTransport 4 2 "q-1") =
      .error (.queryTimeout "q-1" (execute pendingTransport 4 2 "q-1").elapsed) ∧
    (∀ c : Bool, execute { pendingTransport with cancelSucceeds := c } 4 2 "q-1" =
      execute pendingTransport 4 2 "q-1") :=
  execute_pending_forever_times_out pendingTransport 4 2 "q-1" (by decide)
    (fun _ => rfl)

/-- C3: an explicit caller-initiated cancel while the machine is in
`Submitted` or `Polling` issues one cancellation request, transitions
locally to `Cancelled` whatever transport is answering (so regardless of
the request's success), and the execution fails with `QueryCancelled`
carrying the queryUuid. -/
theorem cancel_from_submitted_or_polling (t : Transport) (s : MachineState)
    (h : s.state = .Submitted ∨ s.state = .Polling) :
    (cancelJob t s).state = .Cancelled ∧
    (cancelJob t s).cancelRequests = s.cancelRequests + 1 ∧
    outcomeOf (cancelJob t s) = .error (.queryCancelled s.queryUuid) ∧
    (∀ t2, cancelJob t2 s = cancelJob t s) := by
  cases h with
  | inl h =>
    refine ⟨?_, ?_, ?_, ?_⟩
    · simp [cancelJob, h]
    · simp [cancelJob, h]
    · simp [cancelJob, h, outcomeOf]
    · intro t2
      rfl
  | inr h =>
    refine ⟨?_, ?_, ?_, ?_⟩
    · simp [cancelJob, h]
    · simp [cancelJob, h]
    · simp [cancelJob, h, outcomeOf]
    · intro t2
      rfl

/-- Witness for C3 at a concrete machine state in `Polling`. -/
theorem cancel_from_submitted_or_polling_witness :
    (cancelJob witnessTransport pollingState).state = .Cancelled ∧
    (cancelJob witnessTransport pollingState).cancelRequests =
      pollingState.cancelRequests + 1 ∧
    outcomeOf (cancelJob witnessTransport pollingState) =
      .error (.queryCancelled pollingState.queryUuid) ∧
    (∀ t2, cancelJob t2 pollingState = cancelJob witnessTransport pollingState) :=
  cancel_from_submitted_or_polling witnessTransport pollingState (Or.inr rfl)

end LightdashSpec
